import Mathlib

/-!
Shallow embedding of `spikingjelly/activation_based/neuron.py`.

Tensors are modelled elementwise: one scalar element of a tensor is a
rational number, and one elementwise torch operation is the corresponding
rational operation.  All torch operations used by the embedded code paths
are elementwise, so a scalar faithfully tracks one element of the tensor
computation.  Exact rational arithmetic is used except where a claim is
explicitly about IEEE binary32 rounding; for that a round-to-nearest-even
binary32 model `fl32` is provided below.

The surrogate functions of the repository all compute
`heaviside(x) = (x >= 0).to(x)` on the forward pass; gradients are outside
the value-level state machine, so the forward heaviside is the embedding of
`surrogate_function` and `detach`/`no_grad` wrappers are value-level
identities.
-/

namespace Neuron

/-- Forward pass of every surrogate function: `heaviside(x) = (x >= 0).to(x)`. -/
def heaviside (x : ℚ) : ℚ := if 0 ≤ x then 1 else 0

/-- `BaseNode.jit_hard_reset`: `v = (1. - spike) * v + spike * v_reset`. -/
def jit_hard_reset (v spike v_reset : ℚ) : ℚ := (1 - spike) * v + spike * v_reset

/-- `BaseNode.jit_soft_reset`: `v = v - spike * v_threshold`. -/
def jit_soft_reset (v spike v_threshold : ℚ) : ℚ := v - spike * v_threshold

/-- `BaseNode.neuronal_fire`: `surrogate_function(v - v_threshold)`. -/
def neuronal_fire (v v_threshold : ℚ) : ℚ := heaviside (v - v_threshold)

/-- `BaseNode.neuronal_reset`: soft reset when `v_reset is None`, otherwise
hard reset.  `detach_reset` only detaches the autodiff graph; `spike_d`
equals `spike` as a value, so the flag does not appear in the value model. -/
def neuronal_reset (v_reset : Option ℚ) (v_threshold v spike : ℚ) : ℚ :=
  match v_reset with
  | none => jit_soft_reset v spike v_threshold
  | some vr => jit_hard_reset v spike vr

/-- `BaseNode.single_step_forward` (torch path): charge, fire, reset in this
order, returning `(spike, new v)`; parametric in the per-variant
`neuronal_charge`. -/
def single_step_forward (charge : ℚ → ℚ → ℚ) (v_reset : Option ℚ)
    (v_threshold v x : ℚ) : ℚ × ℚ :=
  let h := charge v x
  let spike := neuronal_fire h v_threshold
  (spike, neuronal_reset v_reset v_threshold h spike)

/-- `BaseNode.multi_step_forward`: the loop
`for t in range(T): y = self.single_step_forward(x_seq[t])`, collecting the
spikes, the final `v`, and (with `store_v_seq`) the `v` after each step. -/
def multi_step_forward (charge : ℚ → ℚ → ℚ) (v_reset : Option ℚ)
    (v_threshold : ℚ) : List ℚ → ℚ → List ℚ × ℚ × List ℚ
  | [], v => ([], v, [])
  | x :: xs, v =>
    let r := single_step_forward charge v_reset v_threshold v x
    let rest := multi_step_forward charge v_reset v_threshold xs r.2
    (r.1 :: rest.1, rest.2.1, r.2 :: rest.2.2)

/-- `IFNode.neuronal_charge`: `self.v = self.v + x`. -/
def ifCharge (v x : ℚ) : ℚ := v + x

namespace IFNode

/-- `IFNode.jit_eval_single_step_forward_hard_reset`. -/
def jit_eval_single_step_forward_hard_reset (x v v_threshold v_reset : ℚ) :
    ℚ × ℚ :=
  let v1 := v + x
  let spike := if v_threshold ≤ v1 then (1 : ℚ) else 0
  (spike, v_reset * spike + (1 - spike) * v1)

/-- `IFNode.jit_eval_single_step_forward_soft_reset`. -/
def jit_eval_single_step_forward_soft_reset (x v v_threshold : ℚ) : ℚ × ℚ :=
  let v1 := v + x
  let spike := if v_threshold ≤ v1 then (1 : ℚ) else 0
  (spike, v1 - spike * v_threshold)

/-- `IFNode.jit_eval_multi_step_forward_hard_reset`: in-kernel per-step loop
returning `(spike_seq, v)`. -/
def jit_eval_multi_step_forward_hard_reset (x_seq : List ℚ)
    (v v_threshold v_reset : ℚ) : List ℚ × ℚ :=
  match x_seq with
  | [] => ([], v)
  | x :: xs =>
    let v1 := v + x
    let spike := if v_threshold ≤ v1 then (1 : ℚ) else 0
    let v2 := v_reset * spike + (1 - spike) * v1
    let rest := jit_eval_multi_step_forward_hard_reset xs v2 v_threshold v_reset
    (spike :: rest.1, rest.2)

/-- `IFNode.jit_eval_multi_step_forward_hard_reset_with_v_seq`: in-kernel loop
returning `(spike_seq, v, v_seq)`. -/
def jit_eval_multi_step_forward_hard_reset_with_v_seq (x_seq : List ℚ)
    (v v_threshold v_reset : ℚ) : List ℚ × ℚ × List ℚ :=
  match x_seq with
  | [] => ([], v, [])
  | x :: xs =>
    let v1 := v + x
    let spike := if v_threshold ≤ v1 then (1 : ℚ) else 0
    let v2 := v_reset * spike + (1 - spike) * v1
    let rest :=
      jit_eval_multi_step_forward_hard_reset_with_v_seq xs v2 v_threshold v_reset
    (spike :: rest.1, rest.2.1, v2 :: rest.2.2)

/-- `IFNode.jit_eval_multi_step_forward_soft_reset_with_v_seq`. -/
def jit_eval_multi_step_forward_soft_reset_with_v_seq (x_seq : List ℚ)
    (v v_threshold : ℚ) : List ℚ × ℚ × List ℚ :=
  match x_seq with
  | [] => ([], v, [])
  | x :: xs =>
    let v1 := v + x
    let spike := if v_threshold ≤ v1 then (1 : ℚ) else 0
    let v2 := v1 - spike * v_threshold
    let rest := jit_eval_multi_step_forward_soft_reset_with_v_seq xs v2 v_threshold
    (spike :: rest.1, rest.2.1, v2 :: rest.2.2)

/-- `IFNode.supported_backends`: `('torch', 'cupy')` for both step modes,
`ValueError` for any other step mode. -/
def supported_backends (step_mode : String) : Except String (List String) :=
  if step_mode = "s" then Except.ok (["torch", "cupy"])
  else if step_mode = "m" then Except.ok (["torch", "cupy"])
  else Except.error step_mode

end IFNode

/-- Which code path a forward call takes after backend dispatch. -/
inductive ForwardPath where
  | generic : ForwardPath
  | cupyKernel : ForwardPath
  | jitEval : ForwardPath
deriving DecidableEq

/-- Control flow of `IFNode.single_step_forward` (identical in
`IFNode.multi_step_forward` and the LIF-family forwards): in training mode,
backend `'torch'` takes the generic charge/fire/reset path, `'cupy'` builds
and applies the fused kernels, and anything else raises
`ValueError(self.backend)`; in eval mode the jit fast path is taken
unconditionally, with no backend check at all. -/
def ifForwardDispatch (training : Bool) (backend : String) :
    Except String ForwardPath :=
  if training then
    if backend = "torch" then Except.ok ForwardPath.generic
    else if backend = "cupy" then Except.ok ForwardPath.cupyKernel
    else Except.error backend
  else Except.ok ForwardPath.jitEval

/-- Control flow of `BaseNode.single_step_forward` as it stands in the base
class, used unchanged by `QIFNode`, `EIFNode` and `IzhikevichNode` (they
override only `multi_step_forward`): the method reads neither
`self.training` nor `self.backend` and always runs the generic
charge/fire/reset path. -/
def baseSingleStepDispatch (_training : Bool) (_backend : String) :
    Except String ForwardPath :=
  Except.ok ForwardPath.generic

/-- Control flow of `QIFNode.multi_step_forward` (identical in `EIFNode`,
`IzhikevichNode` and `ParametricLIFNode`): dispatch on the backend alone,
with no training/eval distinction — `'torch'` runs the generic loop,
`'cupy'` the fused kernel, anything else raises `ValueError(self.backend)`
in eval mode just as in training mode. -/
def qifMultiStepDispatch (_training : Bool) (backend : String) :
    Except String ForwardPath :=
  if backend = "torch" then Except.ok ForwardPath.generic
  else if backend = "cupy" then Except.ok ForwardPath.cupyKernel
  else Except.error backend

/-- Control flow of `GatedLIFNode.multi_step_forward` (identical in
`DSRIFNode.multi_step_forward` and `DSRLIFNode.multi_step_forward`): the
method never inspects `self.backend` and always runs its torch
implementation. -/
def glifMultiStepDispatch (_training : Bool) (_backend : String) :
    Except String ForwardPath :=
  Except.ok ForwardPath.generic

namespace LIFNode

/-- `LIFNode.neuronal_charge_decay_input_reset0`: `v = v + (x - v) / tau`. -/
def neuronal_charge_decay_input_reset0 (x v tau : ℚ) : ℚ := v + (x - v) / tau

/-- `LIFNode.neuronal_charge_decay_input`: `v = v + (x - (v - v_reset)) / tau`. -/
def neuronal_charge_decay_input (x v v_reset tau : ℚ) : ℚ :=
  v + (x - (v - v_reset)) / tau

/-- `LIFNode.neuronal_charge_no_decay_input_reset0`:
`v = v * (1. - 1. / tau) + x`. -/
def neuronal_charge_no_decay_input_reset0 (x v tau : ℚ) : ℚ :=
  v * (1 - 1 / tau) + x

/-- `LIFNode.neuronal_charge_no_decay_input`:
`v = v - (v - v_reset) / tau + x`. -/
def neuronal_charge_no_decay_input (x v v_reset tau : ℚ) : ℚ :=
  v - (v - v_reset) / tau + x

/-- `LIFNode.neuronal_charge`: dispatch on `decay_input` and on
`v_reset is None or v_reset == 0` to the four charge updates above. -/
def neuronal_charge (decay_input : Bool) (v_reset : Option ℚ) (tau v x : ℚ) :
    ℚ :=
  if decay_input then
    match v_reset with
    | none => neuronal_charge_decay_input_reset0 x v tau
    | some vr =>
      if vr = 0 then neuronal_charge_decay_input_reset0 x v tau
      else neuronal_charge_decay_input x v vr tau
  else
    match v_reset with
    | none => neuronal_charge_no_decay_input_reset0 x v tau
    | some vr =>
      if vr = 0 then neuronal_charge_no_decay_input_reset0 x v tau
      else neuronal_charge_no_decay_input x v vr tau

/-- `LIFNode.jit_eval_single_step_forward_hard_reset_decay_input`. -/
def jit_eval_single_step_forward_hard_reset_decay_input
    (x v v_threshold v_reset tau : ℚ) : ℚ × ℚ :=
  let v1 := v + (x - (v - v_reset)) / tau
  let spike := if v_threshold ≤ v1 then (1 : ℚ) else 0
  (spike, v_reset * spike + (1 - spike) * v1)

/-- `LIFNode.jit_eval_single_step_forward_hard_reset_no_decay_input`. -/
def jit_eval_single_step_forward_hard_reset_no_decay_input
    (x v v_threshold v_reset tau : ℚ) : ℚ × ℚ :=
  let v1 := v - (v - v_reset) / tau + x
  let spike := if v_threshold ≤ v1 then (1 : ℚ) else 0
  (spike, v_reset * spike + (1 - spike) * v1)

/-- `LIFNode.jit_eval_single_step_forward_soft_reset_decay_input`. -/
def jit_eval_single_step_forward_soft_reset_decay_input
    (x v v_threshold tau : ℚ) : ℚ × ℚ :=
  let v1 := v + (x - v) / tau
  let spike := if v_threshold ≤ v1 then (1 : ℚ) else 0
  (spike, v1 - spike * v_threshold)

/-- `LIFNode.jit_eval_single_step_forward_soft_reset_no_decay_input`. -/
def jit_eval_single_step_forward_soft_reset_no_decay_input
    (x v v_threshold tau : ℚ) : ℚ × ℚ :=
  let v1 := v * (1 - 1 / tau) + x
  let spike := if v_threshold ≤ v1 then (1 : ℚ) else 0
  (spike, v1 - spike * v_threshold)

/-- `LIFNode.__init__` numeric validation:
`assert isinstance(tau, float) and tau > 1.`. -/
def initOK (tau : ℚ) : Bool := 1 < tau

end LIFNode

/-! ### IEEE rounding model, for the bit-compatibility claim.

`fl32 q` (resp. `fl64 q`) rounds an exact rational to the nearest binary32
(resp. binary64) value with round-to-nearest, ties-to-even, and unbounded
exponent range: the inputs of the claims settled with it stay far inside the
normal range, where this agrees with IEEE.  An IEEE torch operation on
already-rounded operands is the exact rational operation followed by the
rounding.

Scalar precision follows the source: in the TorchScript kernels `tau` and
`v_reset` are Python/TorchScript `float`s, i.e. binary64 doubles, so a
scalar expression such as `1. - 1. / tau` is evaluated entirely in binary64;
a binary32 tensor operation that consumes a double scalar casts it to
binary32 once, at that operation. -/

/-- `2^e` as a rational, for an integer exponent. -/
def pow2 (e : ℤ) : ℚ :=
  if 0 ≤ e then ((2 : ℚ) ^ e.toNat) else 1 / (2 : ℚ) ^ (-e).toNat

/-- Binary-search-free exponent finder: scales `q` into `[1, 2)` while
tracking the exponent, with explicit fuel for structural recursion.  For
`q > 0` and enough fuel, the result `e` satisfies `2^e ≤ q < 2^(e+1)`. -/
def findExp : ℕ → ℚ → ℤ → ℤ
  | 0, _, e => e
  | fuel + 1, q, e =>
    if q < 1 then findExp fuel (2 * q) (e - 1)
    else if 2 ≤ q then findExp fuel (q / 2) (e + 1)
    else e

/-- Nearest integer, ties to even. -/
def roundTiesEven (q : ℚ) : ℤ :=
  let f := ⌊q⌋
  if q - f < 1 / 2 then f
  else if (1 : ℚ) / 2 < q - f then f + 1
  else if f % 2 = 0 then f else f + 1

/-- Round an exact rational to the nearest binary32 value (ties to even),
unbounded exponent. -/
def fl32 (q : ℚ) : ℚ :=
  if q = 0 then 0
  else
    let s : ℚ := if q < 0 then -1 else 1
    let a := |q|
    let e := findExp 40 a 0
    let m := roundTiesEven (a * pow2 (23 - e))
    s * m * pow2 (e - 23)

/-- binary32 addition of already-rounded operands. -/
def fadd (a b : ℚ) : ℚ := fl32 (a + b)

/-- binary32 subtraction of already-rounded operands. -/
def fsub (a b : ℚ) : ℚ := fl32 (a - b)

/-- binary32 multiplication of already-rounded operands. -/
def fmul (a b : ℚ) : ℚ := fl32 (a * b)

/-- binary32 division of already-rounded operands. -/
def fdiv (a b : ℚ) : ℚ := fl32 (a / b)

/-- Round an exact rational to the nearest binary64 value (ties to even),
unbounded exponent. -/
def fl64 (q : ℚ) : ℚ :=
  if q = 0 then 0
  else
    let s : ℚ := if q < 0 then -1 else 1
    let a := |q|
    let e := findExp 40 a 0
    let m := roundTiesEven (a * pow2 (52 - e))
    s * m * pow2 (e - 52)

/-- binary64 subtraction of already-rounded operands (scalar arithmetic). -/
def fsub64 (a b : ℚ) : ℚ := fl64 (a - b)

/-- binary64 division of already-rounded operands (scalar arithmetic). -/
def fdiv64 (a b : ℚ) : ℚ := fl64 (a / b)

/-- `LIFNode.neuronal_charge_no_decay_input_reset0` with source precision:
`v * (1. - 1. / tau) + x` on a binary32 tensor.  The scalar `1. - 1. / tau`
is evaluated in binary64 (`tau` is a binary64-representable double) and cast
to binary32 once, where the tensor multiply consumes it; the tensor multiply
and add run in binary32. -/
def chargeNoDecayReset0F32 (x v tau : ℚ) : ℚ :=
  fadd (fmul v (fl32 (fsub64 1 (fdiv64 1 tau)))) x

/-- `LIFNode.neuronal_charge_no_decay_input` with source precision:
`v - (v - v_reset) / tau + x` on a binary32 tensor.  The double scalars
`v_reset` and `tau` (binary64-representable inputs) are cast to binary32 at
the tensor subtract and tensor divide that consume them; all tensor
operations run in binary32. -/
def chargeNoDecayGeneralF32 (x v v_reset tau : ℚ) : ℚ :=
  fadd (fsub v (fdiv (fsub v (fl32 v_reset)) (fl32 tau))) x

/-! ### KLIFNode -/

/-- `torch.relu`. -/
def relu (q : ℚ) : ℚ := max q 0

namespace KLIFNode

/-- `KLIFNode.neuronal_charge_decay_input`:
`v = v + (x - (v - v_reset)) / tau; v = torch.relu_(k * v)`. -/
def neuronal_charge_decay_input (x v v_reset tau k : ℚ) : ℚ :=
  relu (k * (v + (x - (v - v_reset)) / tau))

/-- `KLIFNode.neuronal_charge_no_decay_input`:
`v = v - (v - v_reset) / tau + x; v = torch.relu_(k * v)`. -/
def neuronal_charge_no_decay_input (x v v_reset tau k : ℚ) : ℚ :=
  relu (k * (v - (v - v_reset) / tau + x))

/-- `KLIFNode.neuronal_reset`: with `scale_reset`, `v` is divided by `k`
around the usual hard/soft reset; without it, the usual reset. -/
def neuronal_reset (scale_reset : Bool) (v_reset : Option ℚ)
    (v_threshold k v spike : ℚ) : ℚ :=
  if scale_reset then
    match v_reset with
    | none => jit_soft_reset v spike v_threshold / k
    | some vr => jit_hard_reset (v / k) spike vr
  else
    match v_reset with
    | none => jit_soft_reset v spike v_threshold
    | some vr => jit_hard_reset v spike vr

/-- `BaseNode.single_step_forward` specialised to `KLIFNode`'s overridden
charge and reset (KLIF inherits fire and the step order from `BaseNode`).
`v_reset = None` is charged as `v_reset = 0` (see `KLIFNode.neuronal_charge`). -/
def single_step_forward (decay_input scale_reset : Bool) (v_reset : Option ℚ)
    (v_threshold tau k v x : ℚ) : ℚ × ℚ :=
  let vr0 := match v_reset with | none => (0 : ℚ) | some vr => vr
  let h :=
    if decay_input then neuronal_charge_decay_input x v vr0 tau k
    else neuronal_charge_no_decay_input x v vr0 tau k
  let spike := neuronal_fire h v_threshold
  (spike, neuronal_reset scale_reset v_reset v_threshold k h spike)

end KLIFNode

/-! ### GatedLIFNode

Scalar model of one channel.  The learnable gate parameters enter the
equations only through their sigmoids, so the model takes the sigmoided
values `alpha beta gamma ts ld vsub vth` and the per-step sigmoided
conductances directly as rationals. -/

structure GLIFParams where
  alpha : ℚ
  beta : ℚ
  gamma : ℚ
  ts : ℚ
  ld : ℚ
  vsub : ℚ
  vth : ℚ

namespace GatedLIFNode

/-- `GatedLIFNode.neuronal_charge`:
`u = ((1 - alpha*(1 - tau)) * v - (1 - alpha) * linear_decay) + x*(1 - beta*(1 - conduct[t]))`. -/
def neuronal_charge (p : GLIFParams) (c_t x v : ℚ) : ℚ :=
  ((1 - p.alpha * (1 - p.ts)) * v - (1 - p.alpha) * p.ld)
    + x * (1 - p.beta * (1 - c_t))

/-- `GatedLIFNode.neuronal_reset`:
`u = u - (1 - alpha*(1 - tau))*v*gamma*spike - (1 - gamma)*v_subreset*spike`. -/
def neuronal_reset (p : GLIFParams) (u v spike : ℚ) : ℚ :=
  u - (1 - p.alpha * (1 - p.ts)) * v * p.gamma * spike
    - (1 - p.gamma) * p.vsub * spike

/-- `GatedLIFNode.neuronal_fire`: `surrogate(u - v_threshold)`. -/
def neuronal_fire (p : GLIFParams) (u : ℚ) : ℚ := heaviside (u - p.vth)

/-- One iteration of `GatedLIFNode.multi_step_forward`'s loop, exactly in
source order: charge from `v`, then reset `u` with the spike of the
*previous* iteration, then fire, then `v = u`.  Returns
`(spike_t, new v)`. -/
def step (p : GLIFParams) (c_t x v spikePrev : ℚ) : ℚ × ℚ :=
  let u := neuronal_charge p c_t x v
  let u1 := neuronal_reset p u v spikePrev
  let s := neuronal_fire p u1
  (s, u1)

/-- `GatedLIFNode.multi_step_forward`: the per-step inputs are paired with
the per-step conductances; `spike` starts as a zero tensor.  Returns the
spike sequence and the final `v`. -/
def multi_step_forward (p : GLIFParams) :
    List (ℚ × ℚ) → ℚ → ℚ → List ℚ × ℚ
  | [], v, _ => ([], v)
  | (x, c) :: xs, v, spikePrev =>
    let r := step p c x v spikePrev
    let rest := multi_step_forward p xs r.2 r.1
    (r.1 :: rest.1, rest.2)

/-- The step order the claim asserts for every variant: charge, fire, and
then reset driven by the *same* step's spike. -/
def claimedStep (p : GLIFParams) (c_t x v : ℚ) : ℚ × ℚ :=
  let u := neuronal_charge p c_t x v
  let s := neuronal_fire p u
  (s, neuronal_reset p u v s)

/-- Multi-step loop built from `claimedStep`. -/
def claimedMultiStep (p : GLIFParams) :
    List (ℚ × ℚ) → ℚ → List ℚ × ℚ
  | [], v => ([], v)
  | (x, c) :: xs, v =>
    let r := claimedStep p c x v
    let rest := claimedMultiStep p xs r.2
    (r.1 :: rest.1, rest.2)

end GatedLIFNode

/-! ### DSR family -/

namespace DSRIFNode

/-- `input_rate_coding = torch.mean(inp, 0)`, one element. -/
def rate_coding (inp : List ℚ) : ℚ := inp.sum / inp.length

/-- One element of the per-step input gradient of `DSRIFFunction.backward`:
`grad_output_coding = mean(grad_output, 0) * T`;
`input_grad = grad_output_coding` zeroed where
`(input_rate_coding < 0) | (input_rate_coding > v_threshold)`, then
broadcast over `T` steps and divided by `T`. -/
def input_grad (inp grad_output : List ℚ) (T : ℕ) (v_threshold : ℚ) : ℚ :=
  let rate := rate_coding inp
  let goc := rate_coding grad_output * T
  (if rate < 0 ∨ v_threshold < rate then 0 else goc) / T

end DSRIFNode

namespace DSRLIFNode

/-- `DSRLIFNode.weight_rate_spikes` with the exponential weights
`exp(-1/tau*(delta_t*T - i*delta_t))` abstracted as a weight list `w`:
`(weight * data).sum / weight.sum`.  The claims proved below hold for every
weight list, in particular for the exponential one. -/
def weight_rate_spikes (w data : List ℚ) : ℚ :=
  (List.zipWith (fun a b => a * b) w data).sum / w.sum

/-- One element of the per-step input gradient of `DSRLIFFunction.backward`:
`indexes = (rate > 0) & (rate < v_threshold / delta_t * tau)`;
`input_grad` is `grad_output_coding / tau` on `indexes` and `0` elsewhere,
broadcast over `T` steps and divided by `T`. -/
def input_grad (w inp grad_output : List ℚ) (T : ℕ)
    (v_threshold tau delta_t : ℚ) : ℚ :=
  let rate := weight_rate_spikes w inp
  let goc := weight_rate_spikes w grad_output * T
  (if 0 < rate ∧ rate < v_threshold / delta_t * tau then goc / tau else 0) / T

end DSRLIFNode

/-! ### OTTTLIFNode -/

/-- Mutable state of `OTTTLIFNode`: the membrane potential buffer and the
spike trace buffer, which exists only once training has created it. -/
structure OTTTState where
  v : ℚ
  trace : Option ℚ

/-- The two shapes of value `OTTTLIFNode.single_step_forward` returns:
`[spike, self.trace]` in training mode, the bare spike in eval mode. -/
inductive OTTTOutput where
  | spikeAndTrace : ℚ → ℚ → OTTTOutput
  | spikeOnly : ℚ → OTTTOutput
deriving DecidableEq

namespace OTTTLIFNode

/-- `OTTTLIFNode.track_trace`: `trace = trace * (1. - 1. / tau) + spike`
(computed under `torch.no_grad`, a value-level identity). -/
def track_trace (spike trace tau : ℚ) : ℚ := trace * (1 - 1 / tau) + spike

/-- `OTTTLIFNode.single_step_forward`.  In training mode with the torch
backend: charge (the LIF update on the detached `v`), fire, reset, update the
trace (created as zeros on first use), and return `[spike, trace]`; any other
backend raises `ValueError`.  In eval mode: the LIF jit single-step fast
path, returning only the spike and leaving the trace untouched. -/
def single_step_forward (training : Bool) (backend : String)
    (decay_input : Bool) (v_reset : Option ℚ) (v_threshold tau : ℚ)
    (st : OTTTState) (x : ℚ) : Except String (OTTTOutput × OTTTState) :=
  if training then
    if backend = "torch" then
      let h := LIFNode.neuronal_charge decay_input v_reset tau st.v x
      let spike := neuronal_fire h v_threshold
      let v1 := neuronal_reset v_reset v_threshold h spike
      let tr := track_trace spike (st.trace.getD 0) tau
      Except.ok (OTTTOutput.spikeAndTrace spike tr, ⟨v1, some tr⟩)
    else Except.error backend
  else
    let r :=
      match v_reset with
      | none =>
        if decay_input then
          LIFNode.jit_eval_single_step_forward_soft_reset_decay_input
            x st.v v_threshold tau
        else
          LIFNode.jit_eval_single_step_forward_soft_reset_no_decay_input
            x st.v v_threshold tau
      | some vr =>
        if decay_input then
          LIFNode.jit_eval_single_step_forward_hard_reset_decay_input
            x st.v v_threshold vr tau
        else
          LIFNode.jit_eval_single_step_forward_hard_reset_no_decay_input
            x st.v v_threshold vr tau
    Except.ok (OTTTOutput.spikeOnly r.1, ⟨r.2, st.trace⟩)

end OTTTLIFNode

/-! ### Construction-time validation (`__init__` asserts) -/

namespace QIFNode

/-- `QIFNode.supported_backends` (identical in `EIFNode`, `IzhikevichNode`
and `ParametricLIFNode`): `('torch',)` in single-step mode,
`('torch', 'cupy')` in multi-step mode, `ValueError` otherwise. -/
def supported_backends (step_mode : String) : Except String (List String) :=
  if step_mode = "s" then Except.ok (["torch"])
  else if step_mode = "m" then Except.ok (["torch", "cupy"])
  else Except.error step_mode

/-- Numeric asserts of `QIFNode.__init__`: `tau > 1`; if `v_reset` is not
`None` then `v_threshold > v_reset` and `v_rest >= v_reset`; `a0 > 0`. -/
def initOK (tau v_rest a0 v_threshold : ℚ) (v_reset : Option ℚ) : Bool :=
  decide (1 < tau) &&
    (match v_reset with
     | some vr => decide (vr < v_threshold) && decide (vr ≤ v_rest)
     | none => true) &&
    decide (0 < a0)

end QIFNode

namespace EIFNode

/-- Numeric asserts of `EIFNode.__init__`: `tau > 1`; if `v_reset` is not
`None` then `v_threshold > v_reset` and `v_rest >= v_reset`; `delta_T > 0`. -/
def initOK (tau v_rest delta_T v_threshold : ℚ) (v_reset : Option ℚ) : Bool :=
  decide (1 < tau) &&
    (match v_reset with
     | some vr => decide (vr < v_threshold) && decide (vr ≤ v_rest)
     | none => true) &&
    decide (0 < delta_T)

end EIFNode

namespace IzhikevichNode

/-- Numeric asserts of `IzhikevichNode.__init__` (including those inherited
from `AdaptBaseNode.__init__` and `BaseNode.__init__`, which are type checks
only): `tau > 1` and `a0 > 0`.  No ordering of `v_threshold`, `v_reset`,
`v_rest` is checked. -/
def initOK (tau a0 : ℚ) : Bool := decide (1 < tau) && decide (0 < a0)

end IzhikevichNode

/-! ### Helper lemmas -/

/-- The eval-mode fused IF single step computes exactly the generic
charge/fire/reset single step. -/
lemma if_single_hard_eq (x v vth vr : ℚ) :
    IFNode.jit_eval_single_step_forward_hard_reset x v vth vr =
      single_step_forward ifCharge (some vr) vth v x := by
  simp only [IFNode.jit_eval_single_step_forward_hard_reset, single_step_forward,
    neuronal_fire, heaviside, neuronal_reset, jit_hard_reset, ifCharge, sub_nonneg]
  by_cases h : vth ≤ v + x <;> simp [h, Prod.ext_iff]

/-- Soft-reset analogue of `if_single_hard_eq`. -/
lemma if_single_soft_eq (x v vth : ℚ) :
    IFNode.jit_eval_single_step_forward_soft_reset x v vth =
      single_step_forward ifCharge none vth v x := by
  simp only [IFNode.jit_eval_single_step_forward_soft_reset, single_step_forward,
    neuronal_fire, heaviside, neuronal_reset, jit_soft_reset, ifCharge, sub_nonneg]

/-- Hard reset after a binary fire stays strictly below the threshold. -/
lemma single_step_hard_lt (charge : ℚ → ℚ → ℚ) (vth vr v x : ℚ) (h : vr < vth) :
    (single_step_forward charge (some vr) vth v x).2 < vth := by
  simp only [single_step_forward, neuronal_fire, heaviside, neuronal_reset,
    jit_hard_reset, sub_nonneg]
  by_cases hc : vth ≤ charge v x
  · simp [hc]; linarith
  · simp [hc]; linarith [not_le.mp hc]

/-! ### Claims -/

/-- C1, counterexample: the hard-reset IF neuron (`v_threshold = 1`,
`v_reset = 0`) driven with `x = [0.6, 0.6, 0.6, 0.6]` from the initial state
`v = v_reset = 0` does *not* end with `v = 0.2`: the second and fourth steps
reach `1.2 ≥ 1`, fire, and hard-reset `v` to exactly `0`. -/
theorem C1_counterexample :
    (IFNode.jit_eval_multi_step_forward_hard_reset [3/5, 3/5, 3/5, 3/5] 0 1 0).2
      ≠ 1/5 := by
  norm_num [IFNode.jit_eval_multi_step_forward_hard_reset]

/-- C1, amended: with `v_threshold = 1`, hard `v_reset = 0`, inputs
`[0.6, 0.6, 0.6, 0.6]` and initial `v = 0`, both the eval-mode multi-step
kernel and four sequential generic single steps produce the spike sequence
`[0, 1, 0, 1]` and final membrane potential `v = 0` (not `0.2`); the
intermediate potentials are `[0.6, 0, 0.6, 0]`. -/
theorem C1_amended_exec :
    IFNode.jit_eval_multi_step_forward_hard_reset [3/5, 3/5, 3/5, 3/5] 0 1 0
        = ([0, 1, 0, 1], 0) ∧
      multi_step_forward ifCharge (some 0) 1 [3/5, 3/5, 3/5, 3/5] 0
        = ([0, 1, 0, 1], 0, [3/5, 0, 3/5, 0]) := by
  constructor
  · norm_num [IFNode.jit_eval_multi_step_forward_hard_reset]
  · norm_num [multi_step_forward, single_step_forward, ifCharge, neuronal_fire,
      heaviside, neuronal_reset, jit_hard_reset]

/-- C2, counterexample: `GatedLIFNode.multi_step_forward` does not perform
`reset(fire(charge(state, x)))` with the step's own spike: it resets with the
*previous* step's spike before firing.  With all sigmoided gates equal to
`1/2` and inputs `[10, 0]`, the source loop ends with `v = 71/32` while the
claimed same-step order would end with `v = 17/8`. -/
theorem C2_counterexample :
    (GatedLIFNode.multi_step_forward ⟨1/2, 1/2, 1/2, 1/2, 1/2, 1/2, 1/2⟩
        [(10, 1/2), (0, 1/2)] 0 0).2
      ≠ (GatedLIFNode.claimedMultiStep ⟨1/2, 1/2, 1/2, 1/2, 1/2, 1/2, 1/2⟩
        [(10, 1/2), (0, 1/2)] 0).2 := by
  norm_num [GatedLIFNode.multi_step_forward, GatedLIFNode.claimedMultiStep,
    GatedLIFNode.step, GatedLIFNode.claimedStep, GatedLIFNode.neuronal_charge,
    GatedLIFNode.neuronal_reset, GatedLIFNode.neuronal_fire, heaviside]

/-- C2, amended: for the `BaseNode` single-step contract (inherited by the
BaseNode-derived variants) each step's returned state is
`reset(fire(charge(state, x)))` driven by that step's own spike, with reset
executed after fire and before returning; `GatedLIFNode.multi_step_forward`
deviates: each loop iteration applies the reset driven by the *previous*
iteration's spike before firing, so its new state is the reset of the charged
state under the previous spike. -/
theorem C2_amended_step_order (charge : ℚ → ℚ → ℚ) (v_reset : Option ℚ)
    (vth v x : ℚ) (p : GLIFParams) (c xg vg sPrev : ℚ) :
    single_step_forward charge v_reset vth v x
        = (neuronal_fire (charge v x) vth,
           neuronal_reset v_reset vth (charge v x)
             (neuronal_fire (charge v x) vth)) ∧
      GatedLIFNode.step p c xg vg sPrev
        = (GatedLIFNode.neuronal_fire p
             (GatedLIFNode.neuronal_reset p
               (GatedLIFNode.neuronal_charge p c xg vg) vg sPrev),
           GatedLIFNode.neuronal_reset p
             (GatedLIFNode.neuronal_charge p c xg vg) vg sPrev) :=
  ⟨rfl, rfl⟩

/-- C3: for a binary spike, the hard reset `(1 - spike) * v + spike * v_reset`
is exact: a fired element lands exactly on `v_reset`, an unfired element keeps
exactly its pre-reset potential (in the exact elementwise model; rationals
have no rounding, and for a finite float `v` the same two branches are exact
in IEEE arithmetic as well). -/
theorem C3_hard_reset_exact (vth v vr s : ℚ) (hs : s = 0 ∨ s = 1) :
    neuronal_reset (some vr) vth v s = (if s = 1 then vr else v) := by
  rcases hs with rfl | rfl <;>
    norm_num [neuronal_reset, jit_hard_reset]

/-- Witness for C3 at `spike = 1` and `spike = 0`. -/
theorem C3_hard_reset_exact_witness :
    neuronal_reset (some (1/4)) 1 (7/2) 1 = 1/4 ∧
      neuronal_reset (some (1/4)) 1 (7/2) 0 = 7/2 :=
  ⟨(C3_hard_reset_exact 1 (7/2) (1/4) 1 (Or.inr rfl)).trans (by norm_num),
   (C3_hard_reset_exact 1 (7/2) (1/4) 0 (Or.inl rfl)).trans (by norm_num)⟩

/-- C4, counterexample: the claim fails for `KLIFNode` with
`scale_reset = True`.  Hard reset with `v_reset = 0 < v_threshold = 1`,
`tau = 2`, `k = 1/2`, `decay_input = True`, `v = 0`, `x = 3`: the charged
potential is `relu(k * 1.5) = 0.75 < 1`, so no spike fires, but the
scale-reset divides by `k`, returning `v = 1.5 ≥ v_threshold`. -/
theorem C4_counterexample :
    (0 : ℚ) < 1 ∧
      ¬ (KLIFNode.single_step_forward true true (some 0) 1 2 (1/2) 0 3).2 < 1 := by
  constructor
  · norm_num
  · norm_num [KLIFNode.single_step_forward, KLIFNode.neuronal_charge_decay_input,
      KLIFNode.neuronal_reset, relu, neuronal_fire, heaviside, jit_hard_reset]

/-- C4, amended: for every configuration that fires with the standard
`BaseNode` fire on the charged potential and resets with the standard
`BaseNode` hard reset on that same potential (any charge function), with
`v_reset < v_threshold`, the post-step potential is strictly below
`v_threshold`, and every intermediate potential of a multi-step execution
satisfies the invariant; `KLIFNode` with `scale_reset = True` and `k < 1` is
excluded, since its reset divides the potential by `k` after the comparison
(see the counterexample). -/
theorem C4_amended_invariant (charge : ℚ → ℚ → ℚ) (vth vr : ℚ) (h : vr < vth)
    (v x : ℚ) (xs : List ℚ) :
    (single_step_forward charge (some vr) vth v x).2 < vth ∧
      ∀ u ∈ (multi_step_forward charge (some vr) vth xs v).2.2, u < vth := by
  refine ⟨single_step_hard_lt charge vth vr v x h, ?_⟩
  induction xs generalizing v with
  | nil => intro u hu; simp [multi_step_forward] at hu
  | cons y ys ih =>
    intro u hu
    simp only [multi_step_forward, List.mem_cons] at hu
    rcases hu with rfl | hu
    · exact single_step_hard_lt charge vth vr v y h
    · exact ih _ u hu

/-- Witness for C4 at `v_threshold = 1 > v_reset = 0`, IF charge, one step
with `x = 3/2` (which fires) and the two-step sequence `[3/2, 1/4]`. -/
theorem C4_amended_invariant_witness :
    (single_step_forward ifCharge (some 0) 1 0 (3/2)).2 < 1 :=
  (C4_amended_invariant ifCharge 1 0 (by norm_num) 0 (3/2) [3/2, 1/4]).1

/-- C5: one eval-mode multi-step call with trajectory capture
(`jit_eval_multi_step_forward_*_reset_with_v_seq`) produces exactly the spike
sequence, final `v`, and `v_seq` of `T` sequential generic single-step calls
(`BaseNode.multi_step_forward` is that sequential loop), for both the hard
and the soft reset configuration of the IF neuron, every input sequence and
every starting potential. -/
theorem C5_multi_single_equiv (vth vr : ℚ) (xs : List ℚ) (v : ℚ) :
    IFNode.jit_eval_multi_step_forward_hard_reset_with_v_seq xs v vth vr
        = multi_step_forward ifCharge (some vr) vth xs v ∧
      IFNode.jit_eval_multi_step_forward_soft_reset_with_v_seq xs v vth
        = multi_step_forward ifCharge none vth xs v := by
  constructor
  · induction xs generalizing v with
    | nil => rfl
    | cons x xs ih =>
      simp only [IFNode.jit_eval_multi_step_forward_hard_reset_with_v_seq,
        multi_step_forward, ← if_single_hard_eq,
        IFNode.jit_eval_single_step_forward_hard_reset, ih]
  · induction xs generalizing v with
    | nil => rfl
    | cons x xs ih =>
      simp only [IFNode.jit_eval_multi_step_forward_soft_reset_with_v_seq,
        multi_step_forward, ← if_single_soft_eq,
        IFNode.jit_eval_single_step_forward_soft_reset, ih]

/-- C7, counterexample: in `DSRIFNode.DSRIFFunction.backward` an element whose
rate-coded input is exactly at the threshold boundary does *not* receive zero
gradient: the zero-mask condition is `rate < 0 or rate > v_threshold`, a
closed band.  With `T = 2`, `inp = [6, 6]` (rate `6` = `v_threshold`) and
output gradient `[1, 1]`, the per-step input gradient is `1`, not `0`. -/
theorem C7_counterexample :
    DSRIFNode.rate_coding [6, 6] = 6 ∧
      DSRIFNode.input_grad [6, 6] [1, 1] 2 6 ≠ 0 := by
  constructor
  · norm_num [DSRIFNode.rate_coding]
  · norm_num [DSRIFNode.input_grad, DSRIFNode.rate_coding]

/-- C7, amended: only `DSRLIFNode.DSRLIFFunction.backward` uses the open band:
an element whose time-weighted rate equals the scaled threshold
`v_threshold / delta_t * tau` (or falls on/outside either boundary) receives
zero input gradient, for every weight vector; `DSRIFNode`'s backward instead
keeps the averaged gradient on the closed band `[0, v_threshold]`, boundary
included. -/
theorem C7_amended_band (w inp go : List ℚ) (T : ℕ) (vth tau dt : ℚ)
    (hb : DSRLIFNode.weight_rate_spikes w inp = vth / dt * tau) :
    DSRLIFNode.input_grad w inp go T vth tau dt = 0 ∧
      ∀ inp2 go2 : List ℚ, ∀ T2 : ℕ, ∀ vth2 : ℚ,
        ¬ (DSRIFNode.rate_coding inp2 < 0 ∨ vth2 < DSRIFNode.rate_coding inp2) →
          DSRIFNode.input_grad inp2 go2 T2 vth2
            = DSRIFNode.rate_coding go2 * T2 / T2 := by
  constructor
  · simp [DSRLIFNode.input_grad, hb]
  · intro inp2 go2 T2 vth2 h2
    simp [DSRIFNode.input_grad, h2]

/-- Witness for C7 with weights `[1]`, input `[2]`, `v_threshold = 2`,
`delta_t = 1`, `tau = 1`: the weighted rate is exactly the scaled threshold
and the input gradient is `0`. -/
theorem C7_amended_band_witness :
    DSRLIFNode.input_grad [1] [2] [5] 1 2 1 1 = 0 :=
  (C7_amended_band [1] [2] [5] 1 2 1 1 (by norm_num [DSRLIFNode.weight_rate_spikes])).1

/-- C8, counterexample: `IzhikevichNode.__init__` performs no ordering check
between `v_threshold`, `v_reset` and `v_rest`: its numeric asserts are only
`tau > 1` and `a0 > 0`.  With `tau = 2`, `a0 = 1` the construction is
accepted even though (modelling `v_threshold = 1`, hard `v_reset = 2`,
`v_rest = 0`) both `v_threshold <= v_reset` and `v_rest < v_reset` hold, so
no error is raised at construction time. -/
theorem C8_counterexample :
    ((1 : ℚ) ≤ 2 ∧ (0 : ℚ) < 2) ∧ IzhikevichNode.initOK 2 1 = true := by
  refine ⟨by norm_num, ?_⟩
  norm_num [IzhikevichNode.initOK]

/-- C8, amended: `QIFNode` and `EIFNode` do validate the hard-reset ordering
at construction (`v_threshold > v_reset` and `v_rest >= v_reset`), and the
leaky variants validate `tau > 1`; `IzhikevichNode` accepts any ordering. -/
theorem C8_amended_validation (tau v_rest a0 vth delta_T vr tau2 : ℚ)
    (hbad : vth ≤ vr ∨ v_rest < vr) (htau2 : tau2 ≤ 1) :
    QIFNode.initOK tau v_rest a0 vth (some vr) = false ∧
      EIFNode.initOK tau v_rest delta_T vth (some vr) = false ∧
      LIFNode.initOK tau2 = false := by
  refine ⟨?_, ?_, by simp [LIFNode.initOK, not_lt.mpr htau2]⟩ <;>
    rcases hbad with hb | hb
  all_goals
    first
      | simp [QIFNode.initOK, EIFNode.initOK, not_lt.mpr hb]
      | simp [QIFNode.initOK, EIFNode.initOK, not_le.mpr hb]

/-- Witness for C8 with `tau = 2`, `v_rest = 0`, `a0 = 1`,
`v_threshold = 1 ≤ v_reset = 2`, `delta_T = 1`, `tau2 = 1`. -/
theorem C8_amended_validation_witness :
    QIFNode.initOK 2 0 1 1 (some 2) = false ∧
      EIFNode.initOK 2 0 1 1 (some 2) = false ∧
      LIFNode.initOK 1 = false :=
  C8_amended_validation 2 0 1 1 1 2 1 (Or.inl (by norm_num)) (by norm_num)

/-- C9, counterexample: the fail-fast guarantee does not hold across
variants and modes.  With the backend string `'gemm'`: (i) `'gemm'` is not
among `IFNode.supported_backends`, yet `IFNode.single_step_forward` in eval
mode silently takes the jit fast path instead of raising; (ii) `'gemm'` is
not among `QIFNode.supported_backends` for single-step mode, yet
`QIFNode`'s single-step forward (`BaseNode.single_step_forward`, which never
reads the backend) silently runs the generic path even in training mode. -/
theorem C9_counterexample :
    IFNode.supported_backends "s" = Except.ok (["torch", "cupy"]) ∧
      ("gemm" ∈ (["torch", "cupy"] : List String)) = False ∧
      ifForwardDispatch false "gemm" = Except.ok ForwardPath.jitEval ∧
      QIFNode.supported_backends "s" = Except.ok (["torch"]) ∧
      ("gemm" ∈ (["torch"] : List String)) = False ∧
      baseSingleStepDispatch true "gemm" = Except.ok ForwardPath.generic := by
  refine ⟨?_, by simp, ?_, ?_, by simp, ?_⟩ <;>
    simp [IFNode.supported_backends, QIFNode.supported_backends,
      ifForwardDispatch, baseSingleStepDispatch]

/-- C9, amended: backend validation is per-method, not a uniform per-variant
guarantee.  For every backend string outside `{'torch', 'cupy'}` and every
training flag: the IF/LIF-family single- and multi-step forwards raise
`ValueError(self.backend)` in training mode but ignore the backend and run
the jit fast path in eval mode; the `QIFNode`/`EIFNode`/`IzhikevichNode`/
`ParametricLIFNode` `multi_step_forward` raises in training and eval mode
alike; their single-step forward (`BaseNode.single_step_forward`) never
checks the backend and silently runs the generic path in either mode; and
`GatedLIFNode` and the DSR nodes never check the backend at all. -/
theorem C9_amended_dispatch (b : String) (h1 : b ≠ "torch") (h2 : b ≠ "cupy")
    (training : Bool) :
    ifForwardDispatch true b = Except.error b ∧
      ifForwardDispatch false b = Except.ok ForwardPath.jitEval ∧
      qifMultiStepDispatch training b = Except.error b ∧
      baseSingleStepDispatch training b = Except.ok ForwardPath.generic ∧
      glifMultiStepDispatch training b = Except.ok ForwardPath.generic := by
  simp [ifForwardDispatch, qifMultiStepDispatch, baseSingleStepDispatch,
    glifMultiStepDispatch, h1, h2]

/-- Witness for C9 at the unsupported backend string `'gemm'` in eval mode. -/
theorem C9_amended_dispatch_witness :
    ifForwardDispatch true "gemm" = Except.error "gemm" ∧
      ifForwardDispatch false "gemm" = Except.ok ForwardPath.jitEval ∧
      qifMultiStepDispatch false "gemm" = Except.error "gemm" ∧
      baseSingleStepDispatch false "gemm" = Except.ok ForwardPath.generic ∧
      glifMultiStepDispatch false "gemm" = Except.ok ForwardPath.generic :=
  C9_amended_dispatch "gemm" (by simp) (by simp) false

/-- C10: `OTTTLIFNode.single_step_forward` changes its return shape with the
training flag.  In training mode (torch backend) it returns the two-element
`[spike, trace]` with `trace` updated to `trace * (1 - 1/tau) + spike`
(created as zeros on first use); in eval mode it returns only the spike, and
the stored trace is left exactly as it was (in particular it is never
created). -/
theorem C10_ottt_return_shape (decay_input : Bool) (v_reset : Option ℚ)
    (vth tau x : ℚ) (st : OTTTState) :
    (OTTTLIFNode.single_step_forward true "torch" decay_input v_reset vth tau
          st x
        = Except.ok
            (OTTTOutput.spikeAndTrace
              (neuronal_fire (LIFNode.neuronal_charge decay_input v_reset tau st.v x) vth)
              (OTTTLIFNode.track_trace
                (neuronal_fire (LIFNode.neuronal_charge decay_input v_reset tau st.v x) vth)
                (st.trace.getD 0) tau),
             ⟨neuronal_reset v_reset vth
                (LIFNode.neuronal_charge decay_input v_reset tau st.v x)
                (neuronal_fire (LIFNode.neuronal_charge decay_input v_reset tau st.v x) vth),
              some (OTTTLIFNode.track_trace
                (neuronal_fire (LIFNode.neuronal_charge decay_input v_reset tau st.v x) vth)
                (st.trace.getD 0) tau)⟩)) ∧
      ∃ s v1, OTTTLIFNode.single_step_forward false "torch" decay_input v_reset
          vth tau st x
        = Except.ok (OTTTOutput.spikeOnly s, ⟨v1, st.trace⟩) := by
  constructor
  · rfl
  · cases v_reset <;> cases decay_input <;> exact ⟨_, _, rfl⟩

/-! ### IEEE evaluation lemmas for C6.

The evaluation chain follows `v * (1. - 1. / tau) + x` versus
`v - (v - v_reset) / tau + x` at `v = 1`, `tau = 3`, `v_reset = 0`, `x = 0`,
one rounded operation at a time: the scalar `1. - 1. / tau` in binary64 with
a single binary32 cast at the tensor multiply, every tensor operation in
binary32. -/

lemma toNat_lit_22 : (22 : ℤ).toNat = 22 := rfl

lemma toNat_lit_23 : (23 : ℤ).toNat = 23 := rfl

lemma toNat_lit_24 : (24 : ℤ).toNat = 24 := rfl

lemma toNat_lit_25 : (25 : ℤ).toNat = 25 := rfl

lemma pow2_neg22 : pow2 (-22 : ℤ) = 1/4194304 := by norm_num [pow2, toNat_lit_22]

lemma pow2_neg23 : pow2 (-23 : ℤ) = 1/8388608 := by norm_num [pow2, toNat_lit_23]

lemma pow2_neg24 : pow2 (-24 : ℤ) = 1/16777216 := by norm_num [pow2, toNat_lit_24]

lemma pow2_neg25 : pow2 (-25 : ℤ) = 1/33554432 := by norm_num [pow2, toNat_lit_25]

lemma findExp_third : findExp 40 (1/3 : ℚ) 0 = -2 := by
  rw [findExp.eq_def]; norm_num
  rw [findExp.eq_def]; norm_num
  rw [findExp.eq_def]; norm_num

lemma rte_third : roundTiesEven ((1/3 : ℚ) * pow2 25) = 11184811 := by
  rw [roundTiesEven]
  rw [show (1/3 : ℚ) * pow2 25 = 33554432/3 by norm_num [pow2, toNat_lit_25]]
  rw [show ⌊(33554432 : ℚ)/3⌋ = 11184810 by rw [Int.floor_eq_iff]; norm_num]
  norm_num

/-- `fl32(1/3) = 0x3EAAAAAB = 11184811 * 2^-25`. -/
lemma fdiv_one_three : fdiv 1 3 = 11184811 / 33554432 := by
  rw [fdiv, fl32]
  norm_num [abs_of_pos, findExp_third, rte_third, pow2_neg25]

lemma findExp_two_thirds : findExp 40 (22369621/33554432 : ℚ) 0 = -1 := by
  rw [findExp.eq_def]; norm_num
  rw [findExp.eq_def]; norm_num

lemma rte_two_thirds :
    roundTiesEven ((22369621/33554432 : ℚ) * pow2 24) = 11184810 := by
  rw [roundTiesEven]
  rw [show (22369621/33554432 : ℚ) * pow2 24 = 22369621/2 by
    norm_num [pow2, toNat_lit_24]]
  rw [show ⌊(22369621 : ℚ)/2⌋ = 11184810 by rw [Int.floor_eq_iff]; norm_num]
  norm_num

/-- `fl32(1 - fl32(1/3))`: the tie rounds to the even mantissa `11184810`,
giving `5592405 * 2^-23`. -/
lemma fsub_one_third : fsub 1 (fdiv 1 3) = 5592405 / 8388608 := by
  rw [fdiv_one_three, fsub, fl32]
  norm_num [abs_of_pos, findExp_two_thirds, rte_two_thirds, pow2_neg24]

lemma findExp_three : findExp 40 (3 : ℚ) 0 = 1 := by
  rw [show (40 : ℕ) = 39 + 1 from rfl, findExp]
  rw [if_neg (by norm_num), if_pos (by norm_num)]
  rw [show (39 : ℕ) = 38 + 1 from rfl, findExp]
  rw [if_neg (by norm_num), if_neg (by norm_num)]
  norm_num

lemma rte_three : roundTiesEven ((3 : ℚ) * pow2 22) = 12582912 := by
  rw [roundTiesEven]
  rw [show (3 : ℚ) * pow2 22 = 12582912 by norm_num [pow2, toNat_lit_22]]
  rw [show ⌊(12582912 : ℚ)⌋ = 12582912 by rw [Int.floor_eq_iff]; norm_num]
  norm_num

/-- `fl32(3) = 3`, the binary32 cast of the double scalar `tau = 3.0`. -/
lemma fl32_three : fl32 3 = 3 := by
  rw [fl32]
  norm_num [abs_of_pos, findExp_three, rte_three, pow2_neg22]

lemma findExp_one : findExp 40 (1 : ℚ) 0 = 0 := by
  rw [findExp.eq_def]; norm_num

lemma rte_one : roundTiesEven (pow2 23) = 8388608 := by
  rw [roundTiesEven]
  rw [show (pow2 23 : ℚ) = 8388608 by norm_num [pow2, toNat_lit_23]]
  rw [show ⌊(8388608 : ℚ)⌋ = 8388608 by rw [Int.floor_eq_iff]; norm_num]
  norm_num

/-- `fl32(0) = 0`, the binary32 cast of the double scalar `v_reset = 0.0`. -/
lemma fl32_zero : fl32 0 = 0 := by
  rw [fl32]
  norm_num

/-- `fl32(1 - fl32(0)) = 1`: subtracting the zero scalar is exact. -/
lemma fsub_one_zero : fsub 1 0 = 1 := by
  rw [fsub, fl32]
  norm_num [abs_of_pos, findExp_one, rte_one, pow2_neg23]

lemma toNat_lit_53 : (53 : ℤ).toNat = 53 := rfl

lemma toNat_lit_54 : (54 : ℤ).toNat = 54 := rfl

lemma pow2_neg53 : pow2 (-53 : ℤ) = 1/9007199254740992 := by
  norm_num [pow2, toNat_lit_53]

lemma pow2_neg54 : pow2 (-54 : ℤ) = 1/18014398509481984 := by
  norm_num [pow2, toNat_lit_54]

lemma rte64_third :
    roundTiesEven ((1/3 : ℚ) * pow2 54) = 6004799503160661 := by
  rw [roundTiesEven]
  rw [show (1/3 : ℚ) * pow2 54 = 18014398509481984/3 by
    norm_num [pow2, toNat_lit_54]]
  rw [show ⌊(18014398509481984 : ℚ)/3⌋ = 6004799503160661 by
    rw [Int.floor_eq_iff]; norm_num]
  norm_num

/-- `fl64(1/3) = 6004799503160661 * 2^-54`, the binary64 scalar `1. / tau`
at `tau = 3.0`. -/
lemma fdiv64_one_three :
    fdiv64 1 3 = 6004799503160661 / 18014398509481984 := by
  rw [fdiv64, fl64]
  norm_num [abs_of_pos, findExp_third, rte64_third, pow2_neg54]

lemma findExp_d64 :
    findExp 40 (12009599006321323/18014398509481984 : ℚ) 0 = -1 := by
  rw [findExp.eq_def]; norm_num
  rw [findExp.eq_def]; norm_num

lemma rte64_tie :
    roundTiesEven ((12009599006321323/18014398509481984 : ℚ) * pow2 53)
      = 6004799503160662 := by
  rw [roundTiesEven]
  rw [show (12009599006321323/18014398509481984 : ℚ) * pow2 53
      = 12009599006321323/2 by norm_num [pow2, toNat_lit_53]]
  rw [show ⌊(12009599006321323 : ℚ)/2⌋ = 6004799503160661 by
    rw [Int.floor_eq_iff]; norm_num]
  norm_num

/-- `fl64(1 - fl64(1/3)) = 3002399751580331 * 2^-52 = 0.66666666666666674`:
the binary64 tie rounds up to the even mantissa. -/
lemma fsub64_one_third :
    fsub64 1 (fdiv64 1 3) = 3002399751580331 / 4503599627370496 := by
  rw [fdiv64_one_three, fsub64, fl64]
  norm_num [abs_of_pos, findExp_d64, rte64_tie, pow2_neg53]

lemma findExp_c32 :
    findExp 40 (3002399751580331/4503599627370496 : ℚ) 0 = -1 := by
  rw [findExp.eq_def]; norm_num
  rw [findExp.eq_def]; norm_num

lemma rte_c32 :
    roundTiesEven ((3002399751580331/4503599627370496 : ℚ) * pow2 24)
      = 11184811 := by
  rw [roundTiesEven]
  rw [show (3002399751580331/4503599627370496 : ℚ) * pow2 24
      = 3002399751580331/268435456 by norm_num [pow2, toNat_lit_24]]
  rw [show ⌊(3002399751580331 : ℚ)/268435456⌋ = 11184810 by
    rw [Int.floor_eq_iff]; norm_num]
  norm_num

/-- The single binary32 cast of the binary64 scalar `1. - 1. / 3.`:
`fl32(0.66666666666666674) = 11184811 * 2^-24 = 0.66666668653...`. -/
lemma fl32_c :
    fl32 (3002399751580331 / 4503599627370496) = 11184811 / 16777216 := by
  rw [fl32]
  norm_num [abs_of_pos, findExp_c32, rte_c32, pow2_neg24]

lemma findExp_m32 : findExp 40 (11184811/16777216 : ℚ) 0 = -1 := by
  rw [findExp.eq_def]; norm_num
  rw [findExp.eq_def]; norm_num

lemma rte_m32 :
    roundTiesEven ((11184811/16777216 : ℚ) * pow2 24) = 11184811 := by
  rw [roundTiesEven]
  rw [show (11184811/16777216 : ℚ) * pow2 24 = 11184811 by
    norm_num [pow2, toNat_lit_24]]
  rw [show ⌊(11184811 : ℚ)⌋ = 11184811 by rw [Int.floor_eq_iff]; norm_num]
  norm_num

/-- The tensor multiply `1 * 0.66666668653...` re-rounds the representable
multiplier. -/
lemma fmul_one_m : fmul 1 (11184811 / 16777216) = 11184811 / 16777216 := by
  rw [fmul, fl32]
  norm_num [abs_of_pos, findExp_m32, rte_m32, pow2_neg24]

lemma fadd_m_zero : fadd (11184811 / 16777216) 0 = 11184811 / 16777216 := by
  rw [fadd, fl32]
  norm_num [abs_of_pos, findExp_m32, rte_m32, pow2_neg24]

lemma findExp_g : findExp 40 (5592405/8388608 : ℚ) 0 = -1 := by
  rw [findExp.eq_def]; norm_num
  rw [findExp.eq_def]; norm_num

lemma rte_g : roundTiesEven ((5592405/8388608 : ℚ) * pow2 24) = 11184810 := by
  rw [roundTiesEven]
  rw [show (5592405/8388608 : ℚ) * pow2 24 = 11184810 by
    norm_num [pow2, toNat_lit_24]]
  rw [show ⌊(11184810 : ℚ)⌋ = 11184810 by rw [Int.floor_eq_iff]; norm_num]
  norm_num

lemma fadd_g_zero : fadd (5592405 / 8388608) 0 = 5592405 / 8388608 := by
  rw [fadd, fl32]
  norm_num [abs_of_pos, findExp_g, rte_g, pow2_neg24]

/-- C6, counterexample: the two no-decay charge forms are *not* bit-for-bit
equal in binary32.  At `v = 1`, `tau = 3`, `v_reset = 0`, `x = 0` the reset0
form `v * (1. - 1. / tau) + x` multiplies by the binary32 cast of the
binary64 scalar `1. - 1. / 3.` and yields `11184811 * 2^-24 = 0.66666668...`,
while the general form `v - (v - v_reset) / tau + x` at `v_reset = 0`
computes `1 - fl32(1/3)` in binary32, whose tie rounds the other way, giving
`5592405 * 2^-23 = 0.66666662...`. -/
theorem C6_counterexample :
    chargeNoDecayReset0F32 0 1 3 = 11184811 / 16777216 ∧
      chargeNoDecayGeneralF32 0 1 0 3 = 5592405 / 8388608 ∧
      chargeNoDecayReset0F32 0 1 3 ≠ chargeNoDecayGeneralF32 0 1 0 3 := by
  have h1 : chargeNoDecayReset0F32 0 1 3 = 11184811 / 16777216 := by
    rw [chargeNoDecayReset0F32, fsub64_one_third, fl32_c, fmul_one_m]
    exact fadd_m_zero
  have h2 : chargeNoDecayGeneralF32 0 1 0 3 = 5592405 / 8388608 := by
    rw [chargeNoDecayGeneralF32, fl32_zero, fsub_one_zero, fl32_three,
      fsub_one_third]
    exact fadd_g_zero
  exact ⟨h1, h2, by rw [h1, h2]; norm_num⟩

/-- C6, amended: in exact arithmetic both reset0 simplifications agree with
the general charge formulas evaluated at `v_reset = 0`, for every membrane
potential, input and time constant (at `v_reset = 0` the `decay_input`
general form differs from its reset0 form only by a subtract-of-zero tensor
operation, an identity on every float, so that pair is also bit-for-bit
equal); the no-decay pair is not bit-for-bit equal in binary32, differing in
the last unit in the last place (see the counterexample). -/
theorem C6_amended_exact_equiv (x v tau : ℚ) :
    LIFNode.neuronal_charge_decay_input_reset0 x v tau
        = LIFNode.neuronal_charge_decay_input x v 0 tau ∧
      LIFNode.neuronal_charge_no_decay_input_reset0 x v tau
        = LIFNode.neuronal_charge_no_decay_input x v 0 tau := by
  constructor
  · simp [LIFNode.neuronal_charge_decay_input_reset0,
      LIFNode.neuronal_charge_decay_input]
  · simp only [LIFNode.neuronal_charge_no_decay_input_reset0,
      LIFNode.neuronal_charge_no_decay_input, sub_zero]
    ring

end Neuron
